import Mathlib

/-!
Shallow embedding of `etl_extract_validate_export.py`, an ETL script that
resolves a database configuration from the environment, runs four data-quality
check queries, extracts six mandatory tables plus up to three optional views,
and exports every extracted table to CSV and Parquet files.

Modelling choices:
* The process environment (after `load_dotenv`, which only populates missing
  variables from a `.env` file) is a map `String → Option String`;
  `os.getenv(k, d)` is `getenv`.
* Python `int(...)` on the port string is `pyInt`; it returns `none` exactly
  when `int` raises `ValueError` (underscore digit grouping and non-ASCII
  digits, which CPython also accepts, are elided).
* The database is an oracle `DB α`: which views exist in the current schema
  (the `information_schema` probe of `view_exists`, reduced to its Boolean
  outcome), the result table of each full-selection query (`none` models a
  failing query), and the scalar returned by each quality-check query
  (`none` models a SQL NULL scalar).
* Row-level semantics of the quality-check SQL is given over explicit row
  lists with rational money columns (`badTotalRows` etc.).
* Side effects are reified as an event trace: `main` returns the ordered list
  of filesystem/database events it performs together with `none` on success
  or the error that aborted it.  `os.path.abspath` is elided (paths are kept
  as the strings the script builds, joined with a fixed separator).
-/

namespace EtlSpec

/-- Connection parameters, mirroring the `DBConfig` dataclass. -/
structure DBConfig where
  host : String
  port : Int
  user : String
  password : String
  db : String
  deriving Repr, DecidableEq

/-- A SQLAlchemy engine, reduced to the data `create_engine` receives:
the connection URL and the `pool_pre_ping` flag. -/
structure Engine where
  url : String
  pool_pre_ping : Bool
  deriving Repr, DecidableEq

/-- The connection URL built by `get_engine`. -/
def engineUrl (cfg : DBConfig) : String :=
  "mysql+pymysql://" ++ cfg.user ++ ":" ++ cfg.password ++ "@" ++ cfg.host
    ++ ":" ++ toString cfg.port ++ "/" ++ cfg.db

/-- `get_engine`: builds the engine from the configuration.  No network
connection is opened here (SQLAlchemy engines connect lazily). -/
def get_engine (cfg : DBConfig) : Engine :=
  { url := engineUrl cfg, pool_pre_ping := true }

/-- `os.getenv(key, default)`: the resolved value of an environment
variable, with `default` used only when the variable is unset. -/
def getenv (env : String → Option String) (key dflt : String) : String :=
  (env key).getD dflt

/-- ASCII whitespace stripped by Python `int` before parsing. -/
def isSpaceChar (c : Char) : Bool :=
  c = ' ' || c = '\t' || c = '\n' || c = '\r' || c = '\x0b' || c = '\x0c'

/-- Strips leading and trailing whitespace from a character list. -/
def trimChars (l : List Char) : List Char :=
  ((l.dropWhile isSpaceChar).reverse.dropWhile isSpaceChar).reverse

/-- Parses a non-empty all-digit character list as a natural number. -/
def digitsVal : List Char → Option Nat
  | [] => none
  | l => l.foldl (fun acc c =>
      match acc with
      | none => none
      | some n => if c.isDigit then some (10 * n + (c.toNat - 48)) else none)
      (some 0)

/-- Python `int` applied to a string (as used on `DB_PORT`): optional
surrounding whitespace, an optional sign, then decimal digits; anything
else raises `ValueError`, modelled as `none`.  (Underscore digit grouping
and non-ASCII decimal digits, which CPython also accepts, are elided.) -/
def pyInt (s : String) : Option Int :=
  match trimChars s.data with
  | '+' :: rest => (digitsVal rest).map Int.ofNat
  | '-' :: rest => (digitsVal rest).map (fun n => -(n : Int))
  | rest => (digitsVal rest).map Int.ofNat

/-- Python `x or 0` on an optional integer scalar (`None` and `0` are both
falsy, so both yield the default `0`). -/
def pyOr0 (x : Option Int) : Int :=
  match x with
  | none => 0
  | some n => if n = 0 then 0 else n

/-- The database, as the oracles the script consults:
`viewExists name` is the Boolean outcome of the `information_schema.views`
probe, `query name` the result table of the full-selection query for
`name` (`none` when the query raises), and `checkScalar name` the scalar
returned by the quality-check query `name` (`none` for a NULL scalar). -/
structure DB (α : Type) where
  viewExists : String → Bool
  query : String → Option α
  checkScalar : String → Option Int

/-- The four check names, in the iteration order of the `checks` dict in
`run_checks`. -/
def checkNames : List String :=
  ["bad_total_rows", "orphan_items", "negative_money_rows", "bad_line_total_rows"]

/-- `run_checks`: executes each check query in dict order and coalesces
its scalar with `or 0` and `int(...)`. -/
def run_checks (scalar : String → Option Int) : List (String × Int) :=
  checkNames.map (fun n => (n, pyOr0 (scalar n)))

/-- A row of `fact_order`, with the columns the check queries read. -/
structure OrderRow where
  order_id : Int
  subtotal : ℚ
  tax : ℚ
  shipping : ℚ
  total : ℚ
  deriving Repr, DecidableEq

/-- A row of `fact_order_item`, with the columns the check queries read. -/
structure ItemRow where
  order_id : Int
  qty : ℚ
  unit_price : ℚ
  line_total : ℚ
  deriving Repr, DecidableEq

/-- Row-level semantics of the `bad_total_rows` check SQL:
`COUNT(*) FROM fact_order WHERE ABS(total - (subtotal + tax + shipping)) > 0.02`. -/
def badTotalRows (fact_order : List OrderRow) : Nat :=
  (fact_order.filter
    (fun r => decide ((2 : ℚ)/100 < |r.total - (r.subtotal + r.tax + r.shipping)|))).length

/-- Row-level semantics of the `orphan_items` check SQL: items whose
`order_id` matches no order (left join, parent NULL). -/
def orphanItems (fact_order_item : List ItemRow) (fact_order : List OrderRow) : Nat :=
  (fact_order_item.filter
    (fun i => decide (∀ o ∈ fact_order, o.order_id ≠ i.order_id))).length

/-- Row-level semantics of the `negative_money_rows` check SQL. -/
def negativeMoneyRows (fact_order : List OrderRow) : Nat :=
  (fact_order.filter
    (fun r => decide (r.subtotal < 0 ∨ r.tax < 0 ∨ r.shipping < 0 ∨ r.total < 0))).length

/-- Row-level semantics of the `bad_line_total_rows` check SQL:
`COUNT(*) FROM fact_order_item WHERE ABS(line_total - (qty * unit_price)) > 0.02`. -/
def badLineTotalRows (fact_order_item : List ItemRow) : Nat :=
  (fact_order_item.filter
    (fun i => decide ((2 : ℚ)/100 < |i.line_total - i.qty * i.unit_price|))).length

/-- `view_exists`, reduced to its Boolean outcome on the database oracle. -/
def view_exists (db : DB α) (name : String) : Bool :=
  db.viewExists name

/-- The six mandatory tables of `extract`, in the insertion order of its
`queries` dict. -/
def mandatoryTables : List String :=
  ["dim_date", "dim_customer", "dim_product", "fact_order", "fact_order_item", "fact_login"]

/-- The three optional views of `extract`, in the order they are probed. -/
def optionalViews : List String :=
  ["vw_monthly_kpis", "vw_monthly_mau", "vw_customer_metrics"]

/-- The keys of the `queries` dict built by `extract`: the six mandatory
tables followed by each optional view whose probe succeeded. -/
def extractNames (db : DB α) : List String :=
  mandatoryTables ++ optionalViews.filter (fun v => view_exists db v)

/-- Runs the full-selection queries in dict order, materializing each
result; the first failing query aborts the whole extraction. -/
def runQueries (db : DB α) : List String → Except String (List (String × α))
  | [] => .ok []
  | n :: ns =>
    match db.query n with
    | none => .error n
    | some t =>
      match runQueries db ns with
      | .error e => .error e
      | .ok rest => .ok ((n, t) :: rest)

/-- `extract`: probes the optional views, then runs every query; returns
the name-indexed collection of materialized tables, or the name of the
first failing query. -/
def extract (db : DB α) : Except String (List (String × α)) :=
  runQueries db (extractNames db)

/-- `os.path.join` with the fixed separator of the target platform. -/
def joinPath (a b : String) : String := a ++ "/" ++ b

/-- An observable side effect of the script, in the order performed. -/
inductive Ev where
  /-- the four `print` calls showing the resolved configuration -/
  | printConfig
  /-- `mkdir(parents=True, exist_ok=True)` / `os.makedirs(..., exist_ok=True)` -/
  | mkdirOut (path : String)
  /-- the `_write_test.txt` permission probe -/
  | writeTest (path : String)
  /-- `get_engine` returned this engine -/
  | engineCreated (e : Engine)
  /-- `run_checks` ran and returned these counts -/
  | checksRun (results : List (String × Int))
  /-- one `df.to_csv(path, index=False)` call for entry `name` -/
  | exportCsv (name : String) (path : String) (index : Bool)
  /-- one `df.to_parquet(path, index=False)` call for entry `name` -/
  | exportParquet (name : String) (path : String) (index : Bool)
  deriving Repr, DecidableEq

/-- `write_outputs`, as the ordered list of filesystem effects it performs:
a makedirs on the output directory, one CSV write per entry, a makedirs on
the `parquet` subdirectory, then one Parquet write per entry. -/
def write_outputs (dfs : List (String × α)) (out_dir : String) : List Ev :=
  (Ev.mkdirOut out_dir
    :: dfs.map (fun p => Ev.exportCsv p.1 (joinPath out_dir (p.1 ++ ".csv")) false))
  ++ (Ev.mkdirOut (joinPath out_dir "parquet")
    :: dfs.map (fun p =>
        Ev.exportParquet p.1 (joinPath (joinPath out_dir "parquet") (p.1 ++ ".parquet")) false))

/-- The errors that abort a run before its natural end. -/
inductive Err where
  /-- `ValueError` raised by `int(os.getenv("DB_PORT", "3306"))` -/
  | portParse (value : String)
  /-- `ValueError("DB_PASSWORD is empty. Check your .env file.")` -/
  | passwordEmpty
  /-- the extraction query for this table or view raised -/
  | queryFailed (name : String)
  deriving Repr, DecidableEq

/-- The configuration `main` builds once the port string has parsed. -/
def resolveCfg (env : String → Option String) (port : Int) : DBConfig :=
  { host := getenv env "DB_HOST" "localhost"
    port := port
    user := getenv env "DB_USER" "root"
    password := getenv env "DB_PASSWORD" ""
    db := getenv env "DB_NAME" "ops_portfolio" }

/-- The side effects `main` performs between the password check and the
extraction: output-directory creation, write-permission probe, engine
construction, quality checks. -/
def preTrace (env : String → Option String) (port : Int) (db : DB α) : List Ev :=
  [Ev.printConfig,
   Ev.mkdirOut (getenv env "OUTPUT_DIR" "./output"),
   Ev.writeTest (joinPath (getenv env "OUTPUT_DIR" "./output") "_write_test.txt"),
   Ev.engineCreated (get_engine (resolveCfg env port)),
   Ev.checksRun (run_checks db.checkScalar)]

/-- `main`: the whole pipeline, returning the ordered trace of its side
effects and `none` on success or the aborting error. -/
def main (env : String → Option String) (db : DB α) : List Ev × Option Err :=
  match pyInt (getenv env "DB_PORT" "3306") with
  | none => ([], some (Err.portParse (getenv env "DB_PORT" "3306")))
  | some port =>
    if (resolveCfg env port).password = "" then
      ([Ev.printConfig], some Err.passwordEmpty)
    else
      match extract db with
      | .error n => (preTrace env port db, some (Err.queryFailed n))
      | .ok dfs =>
          (preTrace env port db ++ write_outputs dfs (getenv env "OUTPUT_DIR" "./output"), none)

/-- Events that touch the database or write to the filesystem (everything
except the stdout configuration print). -/
def touchesDbOrFs : Ev → Bool
  | Ev.printConfig => false
  | _ => true

/-- Events that export an extracted table (CSV or Parquet write). -/
def isExport : Ev → Bool
  | Ev.exportCsv _ _ _ => true
  | Ev.exportParquet _ _ _ => true
  | _ => false

/-- Events that are a Parquet write. -/
def isParquetWrite : Ev → Bool
  | Ev.exportParquet _ _ _ => true
  | _ => false

/-- Events that are a CSV write. -/
def isCsvWrite : Ev → Bool
  | Ev.exportCsv _ _ _ => true
  | _ => false

/-- The CSV write for collection key `n` under `out`: file `n ++ ".csv"`
directly under the output directory, written without a row index. -/
def csvEventFor (n out : String) : Ev → Bool
  | Ev.exportCsv m p i => m == n && p == joinPath out (n ++ ".csv") && i == false
  | _ => false

/-- The Parquet write for collection key `n` under `out`: file
`n ++ ".parquet"` under the `parquet` subdirectory, no row index. -/
def parquetEventFor (n out : String) : Ev → Bool
  | Ev.exportParquet m p i =>
      m == n && p == joinPath (joinPath out "parquet") (n ++ ".parquet") && i == false
  | _ => false

/-- The key an export-CSV event writes, if any. -/
def csvNameOf : Ev → Option String
  | Ev.exportCsv n _ _ => some n
  | _ => none

/-- The key an export-Parquet event writes, if any. -/
def parquetNameOf : Ev → Option String
  | Ev.exportParquet n _ _ => some n
  | _ => none

/-- A database in which every view exists, every query succeeds, and
every check scalar is zero. -/
def allViewsDB : DB Unit :=
  DB.mk (fun _ => true) (fun _ => some ()) (fun _ => some 0)

/-- An environment with no variables set. -/
def emptyEnv : String → Option String := fun _ => none

/-- An environment whose only variable is a non-numeric `DB_PORT`. -/
def badPortEnv : String → Option String :=
  fun k => if k = "DB_PORT" then some "mysql" else none

/-- An environment whose only variable is a whitespace-only `DB_PASSWORD`. -/
def wsPasswordEnv : String → Option String :=
  fun k => if k = "DB_PASSWORD" then some " " else none

/-- An environment whose only variable is a non-empty `DB_PASSWORD`. -/
def okEnv : String → Option String :=
  fun k => if k = "DB_PASSWORD" then some "secret" else none

/-- A database on which every extraction query fails. -/
def failDB : DB Unit :=
  DB.mk (fun _ => false) (fun _ => none) (fun _ => some 0)

/-- A database in which only `vw_monthly_kpis` exists. -/
def oneViewDB : DB Unit :=
  DB.mk (fun v => v == "vw_monthly_kpis") (fun _ => some ()) (fun _ => some 0)

/-- A database in which only `vw_customer_metrics` exists. -/
def metricsViewDB : DB Unit :=
  DB.mk (fun v => v == "vw_customer_metrics") (fun _ => some ()) (fun _ => some 0)

/-- The keys of a successful extraction are exactly the names that were
queried, in order. -/
theorem runQueries_ok_keys {α : Type} {db : DB α} {ns : List String}
    {dfs : List (String × α)} (h : runQueries db ns = Except.ok dfs) :
    dfs.map Prod.fst = ns := by
  induction ns generalizing dfs with
  | nil =>
    simp only [runQueries] at h
    cases h
    rfl
  | cons n ns ih =>
    simp only [runQueries] at h
    cases hq : db.query n with
    | none => rw [hq] at h; cases h
    | some t =>
      rw [hq] at h
      cases hrest : runQueries db ns with
      | error e => rw [hrest] at h; cases h
      | ok rest =>
        rw [hrest] at h
        cases h
        simp [ih hrest]

/-- `runQueries` consults only the `query` oracle of the database. -/
theorem runQueries_congr {α : Type} (db1 db2 : DB α) (h : db1.query = db2.query)
    (ns : List String) : runQueries db1 ns = runQueries db2 ns := by
  induction ns with
  | nil => rfl
  | cons n ns ih => simp only [runQueries, h, ih]

/-- Claim C1: if the resolved password is the empty string, the run aborts
with an error before the engine is constructed and before any database or
filesystem side effect: the trace contains only the configuration print. -/
theorem empty_password_aborts (env : String → Option String) {α : Type} (db : DB α)
    (h : getenv env "DB_PASSWORD" "" = "") :
    (main env db).2.isSome = true ∧ ∀ e ∈ (main env db).1, touchesDbOrFs e = false := by
  unfold main
  cases hp : pyInt (getenv env "DB_PORT" "3306") with
  | none => simp
  | some port =>
    have hpw : (resolveCfg env port).password = "" := h
    simp [hpw, touchesDbOrFs]

/-- Witness for C1: with `DB_PASSWORD` unset (hence resolved to the empty
string), the run errors and performs no database or filesystem effect. -/
theorem empty_password_aborts_witness :
    getenv emptyEnv "DB_PASSWORD" "" = "" ∧
    ((main emptyEnv allViewsDB).2.isSome = true ∧
      ∀ e ∈ (main emptyEnv allViewsDB).1, touchesDbOrFs e = false) :=
  ⟨rfl, empty_password_aborts emptyEnv allViewsDB rfl⟩

/-- Claim C7: a non-numeric `DB_PORT` makes the run fail with the integer
parse error immediately, with an empty effect trace (before any I/O). -/
theorem nonnumeric_port_aborts (env : String → Option String) {α : Type} (db : DB α)
    (h : pyInt (getenv env "DB_PORT" "3306") = none) :
    main env db = ([], some (Err.portParse (getenv env "DB_PORT" "3306"))) := by
  unfold main
  rw [h]

/-- Witness for C7: `DB_PORT=mysql` aborts the run with the parse error
and an empty effect trace. -/
theorem nonnumeric_port_aborts_witness :
    pyInt (getenv badPortEnv "DB_PORT" "3306") = none ∧
    main badPortEnv allViewsDB
      = ([], some (Err.portParse (getenv badPortEnv "DB_PORT" "3306"))) :=
  ⟨by decide, nonnumeric_port_aborts badPortEnv allViewsDB (by decide)⟩

/-- Claim C9: once the port has parsed, the run aborts with the
password-configuration error exactly when the resolved password is the
empty string; any non-empty password reaches engine construction, with
that password embedded in the connection URL. -/
theorem password_check_rejects_exactly_empty (env : String → Option String) {α : Type}
    (db : DB α) (port : Int) (hp : pyInt (getenv env "DB_PORT" "3306") = some port) :
    ((main env db).2 = some Err.passwordEmpty ↔ getenv env "DB_PASSWORD" "" = "") ∧
    (getenv env "DB_PASSWORD" "" ≠ "" →
      Ev.engineCreated (get_engine (resolveCfg env port)) ∈ (main env db).1) := by
  unfold main
  simp only [hp]
  by_cases hpw : getenv env "DB_PASSWORD" "" = ""
  · have hc : (resolveCfg env port).password = "" := hpw
    rw [if_pos hc]
    exact ⟨by simp [hpw], fun hne => absurd hpw hne⟩
  · have hc : ¬ (resolveCfg env port).password = "" := hpw
    rw [if_neg hc]
    cases hext : extract db with
    | error n =>
      refine ⟨?_, fun _ => ?_⟩
      · simp [hpw]
      · simp [preTrace]
    | ok dfs =>
      refine ⟨?_, fun _ => ?_⟩
      · simp [hpw]
      · exact List.mem_append_left _ (by simp [preTrace])

/-- Witness for C9: a whitespace-only password passes the check and the
engine is built with it. -/
theorem password_check_witness :
    pyInt (getenv wsPasswordEnv "DB_PORT" "3306") = some 3306 ∧
    getenv wsPasswordEnv "DB_PASSWORD" "" ≠ "" ∧
    ¬ (main wsPasswordEnv allViewsDB).2 = some Err.passwordEmpty ∧
    Ev.engineCreated (get_engine (resolveCfg wsPasswordEnv 3306))
      ∈ (main wsPasswordEnv allViewsDB).1 := by
  refine ⟨by decide, by decide, ?_, ?_⟩
  · intro hcontra
    exact absurd
      ((password_check_rejects_exactly_empty wsPasswordEnv allViewsDB 3306 (by decide)).1.mp
        hcontra)
      (by decide)
  · exact (password_check_rejects_exactly_empty wsPasswordEnv allViewsDB 3306 (by decide)).2
      (by decide)

/-- Claim C3: when the extraction fails, the run errors and its trace
contains no export event: files are written only after every extraction
query has succeeded. -/
theorem query_failure_no_export (env : String → Option String) {α : Type} (db : DB α)
    (n : String) (h : extract db = Except.error n) :
    (main env db).2.isSome = true ∧ ∀ e ∈ (main env db).1, isExport e = false := by
  unfold main
  cases hp : pyInt (getenv env "DB_PORT" "3306") with
  | none => simp
  | some port =>
    by_cases hpw : (resolveCfg env port).password = ""
    · simp [hpw, isExport]
    · simp only [hp, if_neg hpw, h]
      exact ⟨rfl, by simp [preTrace, isExport]⟩

/-- Witness for C3: a database on which the first query fails yields an
erroring run with no export event in its trace. -/
theorem query_failure_no_export_witness :
    extract failDB = Except.error "dim_date" ∧
    ((main okEnv failDB).2.isSome = true ∧
      ∀ e ∈ (main okEnv failDB).1, isExport e = false) :=
  ⟨rfl, query_failure_no_export okEnv failDB "dim_date" rfl⟩

/-- Claim C8: the quality-check results never gate the pipeline: two runs
over databases that differ only in the check scalars have the same
extraction result, the same export events, and the same outcome. -/
theorem checks_never_gate (env : String → Option String) {α : Type}
    (ve : String → Bool) (q : String → Option α) (s1 s2 : String → Option Int) :
    extract (DB.mk ve q s1) = extract (DB.mk ve q s2) ∧
    (main env (DB.mk ve q s1)).1.filter isExport
      = (main env (DB.mk ve q s2)).1.filter isExport ∧
    (main env (DB.mk ve q s1)).2 = (main env (DB.mk ve q s2)).2 := by
  have hone : extract (DB.mk ve q s1) = extract (DB.mk ve q s2) :=
    runQueries_congr (DB.mk ve q s1) (DB.mk ve q s2) rfl _
  refine ⟨hone, ?_⟩
  unfold main
  cases hp : pyInt (getenv env "DB_PORT" "3306") with
  | none => exact ⟨rfl, rfl⟩
  | some port =>
    by_cases hpw : (resolveCfg env port).password = ""
    · simp [hpw]
    · simp only [if_neg hpw]
      cases hext : extract (DB.mk ve q s2) with
      | error n =>
        rw [hone, hext]
        exact ⟨by simp [preTrace, isExport], rfl⟩
      | ok dfs =>
        rw [hone, hext]
        exact ⟨by simp [List.filter_append, preTrace, isExport], rfl⟩

/-- Claim C4: `run_checks` returns exactly the four named counts, in dict
order; every returned value is non-negative whenever the underlying
scalars are (they are `COUNT(*)` results), and a NULL scalar for a check
is coalesced to the count zero. -/
theorem run_checks_shape (s : String → Option Int)
    (h : ∀ n v, s n = some v → 0 ≤ v) :
    (run_checks s).map Prod.fst = checkNames ∧
    (∀ p ∈ run_checks s, 0 ≤ p.2) ∧
    (∀ n ∈ checkNames, s n = none → (n, 0) ∈ run_checks s) := by
  refine ⟨?_, ?_, ?_⟩
  · rfl
  · intro p hp
    simp only [run_checks, List.mem_map] at hp
    obtain ⟨n, _, rfl⟩ := hp
    show 0 ≤ pyOr0 (s n)
    cases hs : s n with
    | none => simp [pyOr0]
    | some v =>
      simp only [pyOr0]
      split
      · exact le_refl 0
      · exact h n v hs
  · intro n hn hnone
    simp only [run_checks, List.mem_map]
    exact ⟨n, hn, by simp [pyOr0, hnone]⟩

/-- Witness for C4: with every check scalar NULL, `run_checks` returns the
four keys in order, all zero. -/
theorem run_checks_shape_witness :
    (run_checks (fun _ => none)).map Prod.fst = checkNames ∧
    (∀ p ∈ run_checks (fun _ => none), 0 ≤ p.2) ∧
    (∀ n ∈ checkNames, (none : Option Int) = none →
      (n, 0) ∈ run_checks (fun _ => none)) :=
  run_checks_shape (fun _ => none) (fun _ _ hv => by cases hv)

/-- Claim C6: the `bad_total_rows` check counts exactly the `fact_order`
rows whose absolute difference between `total` and
`subtotal + tax + shipping` strictly exceeds 0.02; a row whose difference
is exactly 0.02 is not counted. -/
theorem bad_total_strict_boundary (rows : List OrderRow) (r : OrderRow)
    (h : |r.total - (r.subtotal + r.tax + r.shipping)| = 2/100) :
    badTotalRows rows
      = rows.countP
          (fun x => decide ((2 : ℚ)/100 < |x.total - (x.subtotal + x.tax + x.shipping)|)) ∧
    badTotalRows (r :: rows) = badTotalRows rows := by
  constructor
  · rw [badTotalRows, List.countP_eq_length_filter]
  · have hfalse :
        decide ((2 : ℚ)/100 < |r.total - (r.subtotal + r.tax + r.shipping)|) = false := by
      simp [h]
    simp [badTotalRows, List.filter_cons, hfalse]

/-- Witness for C6: a row off by exactly 0.02 is not flagged, while a row
off by 1.00 is. -/
theorem bad_total_strict_boundary_witness :
    |(OrderRow.mk 1 1 0 0 (51/50)).total
        - ((OrderRow.mk 1 1 0 0 (51/50)).subtotal + (OrderRow.mk 1 1 0 0 (51/50)).tax
          + (OrderRow.mk 1 1 0 0 (51/50)).shipping)| = 2/100 ∧
    badTotalRows [OrderRow.mk 1 1 0 0 (51/50), OrderRow.mk 2 1 0 0 2]
      = badTotalRows [OrderRow.mk 2 1 0 0 2] ∧
    badTotalRows [OrderRow.mk 2 1 0 0 2] = 1 := by
  have h : |((51:ℚ)/50) - (1 + 0 + 0)| = 2/100 := by
    rw [show ((51:ℚ)/50 - (1 + 0 + 0)) = 2/100 by norm_num]
    rw [abs_of_nonneg (by norm_num)]
  have hbig : ((2:ℚ)/100 < |(2:ℚ) - 1|) := by
    rw [show ((2:ℚ) - 1) = 1 by norm_num, abs_one]
    norm_num
  refine ⟨h, (bad_total_strict_boundary [OrderRow.mk 2 1 0 0 2] (OrderRow.mk 1 1 0 0 (51/50)) h).2, ?_⟩
  simp [badTotalRows, List.filter_cons, hbig]


/-- Counterexample to C2 as stated: in a database where the probed view
`vw_monthly_mau` is absent (but `vw_monthly_kpis` is present), the
resulting collection has seven entries, not six. -/
theorem absent_view_not_six_entries :
    view_exists oneViewDB "vw_monthly_mau" = false ∧
    (extract oneViewDB).toOption.map List.length = some 7 :=
  ⟨rfl, rfl⟩

/-- Claim C2 (amended): the entry set of a successful extraction is a pure
function of view presence: the six mandatory tables are always included,
each optional view is included exactly when it exists, the entry count is
six plus the number of present optional views — six when every probed view
is absent, nine when all three are present. -/
theorem extract_entry_count {α : Type} (db : DB α) (dfs : List (String × α))
    (h : extract db = Except.ok dfs) :
    (∀ n ∈ mandatoryTables, n ∈ dfs.map Prod.fst) ∧
    (∀ v ∈ optionalViews, (v ∈ dfs.map Prod.fst ↔ view_exists db v = true)) ∧
    dfs.length = 6 + (optionalViews.filter (fun v => view_exists db v)).length ∧
    ((∀ v ∈ optionalViews, view_exists db v = false) → dfs.length = 6) ∧
    ((∀ v ∈ optionalViews, view_exists db v = true) → dfs.length = 9) := by
  have hkeys : dfs.map Prod.fst = extractNames db := runQueries_ok_keys h
  have hlen : dfs.length = 6 + (optionalViews.filter (fun v => view_exists db v)).length := by
    have hl := congrArg List.length hkeys
    simp only [List.length_map] at hl
    simp only [extractNames, mandatoryTables, List.length_append, List.length_cons,
      List.length_nil] at hl
    omega
  refine ⟨?_, ?_, hlen, ?_, ?_⟩
  · intro n hn
    rw [hkeys]
    exact List.mem_append_left _ hn
  · intro v hv
    rw [hkeys]
    unfold extractNames
    constructor
    · intro hmem
      rcases List.mem_append.mp hmem with h1 | h2
      · exfalso
        simp only [optionalViews, List.mem_cons, List.not_mem_nil, or_false] at hv
        rcases hv with rfl | rfl | rfl <;> simp [mandatoryTables] at h1
      · exact (List.mem_filter.mp h2).2
    · intro hex
      exact List.mem_append_right _ (List.mem_filter.mpr ⟨hv, hex⟩)
  · intro hall
    rw [hlen, List.filter_eq_nil_iff.mpr (fun v hv => by simp [hall v hv])]
    rfl
  · intro hall
    rw [hlen, List.filter_eq_self.mpr (fun v hv => hall v hv)]
    rfl

/-- Witness for the amended C2: with all three views present, extraction
yields nine entries. -/
theorem extract_entry_count_witness :
    extract allViewsDB = Except.ok
      [("dim_date", ()), ("dim_customer", ()), ("dim_product", ()), ("fact_order", ()),
       ("fact_order_item", ()), ("fact_login", ()), ("vw_monthly_kpis", ()),
       ("vw_monthly_mau", ()), ("vw_customer_metrics", ())] ∧
    ([("dim_date", ()), ("dim_customer", ()), ("dim_product", ()), ("fact_order", ()),
       ("fact_order_item", ()), ("fact_login", ()), ("vw_monthly_kpis", ()),
       ("vw_monthly_mau", ()), ("vw_customer_metrics", ())] : List (String × Unit)).length = 9 :=
  ⟨rfl,
    (extract_entry_count allViewsDB
      [("dim_date", ()), ("dim_customer", ()), ("dim_product", ()), ("fact_order", ()),
       ("fact_order_item", ()), ("fact_login", ()), ("vw_monthly_kpis", ()),
       ("vw_monthly_mau", ()), ("vw_customer_metrics", ())] rfl).2.2.2.2 (by decide)⟩

/-- CSV write events generated from a collection match the key `n` exactly
as often as `n` occurs among the collection keys. -/
theorem countP_csv_map {α : Type} (dfs : List (String × α)) (n out : String) :
    (dfs.map (fun p => Ev.exportCsv p.1 (joinPath out (p.1 ++ ".csv")) false)).countP
      (csvEventFor n out) = (dfs.map Prod.fst).count n := by
  induction dfs with
  | nil => rfl
  | cons p rest ih =>
    by_cases hp : p.1 = n
    · simp [List.countP_cons, List.count_cons, csvEventFor, hp, ih]
    · simp [List.countP_cons, List.count_cons, csvEventFor, hp, ih]

/-- Parquet write events generated from a collection match the key `n`
exactly as often as `n` occurs among the collection keys. -/
theorem countP_parquet_map {α : Type} (dfs : List (String × α)) (n out : String) :
    (dfs.map (fun p =>
        Ev.exportParquet p.1 (joinPath (joinPath out "parquet") (p.1 ++ ".parquet")) false)).countP
      (parquetEventFor n out) = (dfs.map Prod.fst).count n := by
  induction dfs with
  | nil => rfl
  | cons p rest ih =>
    by_cases hp : p.1 = n
    · simp [List.countP_cons, List.count_cons, parquetEventFor, hp, ih]
    · simp [List.countP_cons, List.count_cons, parquetEventFor, hp, ih]

/-- No CSV-write predicate matches a Parquet write event. -/
theorem countP_csv_on_parquet_zero {α : Type} (dfs : List (String × α)) (n out : String) :
    (dfs.map (fun p =>
        Ev.exportParquet p.1 (joinPath (joinPath out "parquet") (p.1 ++ ".parquet")) false)).countP
      (csvEventFor n out) = 0 := by
  rw [List.countP_eq_zero]
  intro e he
  obtain ⟨p, _, rfl⟩ := List.mem_map.mp he
  simp [csvEventFor]

/-- No Parquet-write predicate matches a CSV write event. -/
theorem countP_parquet_on_csv_zero {α : Type} (dfs : List (String × α)) (n out : String) :
    (dfs.map (fun p => Ev.exportCsv p.1 (joinPath out (p.1 ++ ".csv")) false)).countP
      (parquetEventFor n out) = 0 := by
  rw [List.countP_eq_zero]
  intro e he
  obtain ⟨p, _, rfl⟩ := List.mem_map.mp he
  simp [parquetEventFor]

/-- Claim C5: for every collection key, `write_outputs` performs exactly
one CSV write to `<key>.csv` directly under the output directory and
exactly one Parquet write to `parquet/<key>.parquet`; the CSV and Parquet
write counts equal the collection size (so there are no other export
writes), every export write passes `index = false` (no row-index column),
and the trace splits into a first pass with no Parquet write followed by
a second pass with no CSV write. -/
theorem write_outputs_per_entry {α : Type} (dfs : List (String × α)) (out : String)
    (h : (dfs.map Prod.fst).Nodup) :
    (∀ n ∈ dfs.map Prod.fst,
      (write_outputs dfs out).countP (csvEventFor n out) = 1 ∧
      (write_outputs dfs out).countP (parquetEventFor n out) = 1) ∧
    (write_outputs dfs out).countP isCsvWrite = dfs.length ∧
    (write_outputs dfs out).countP isParquetWrite = dfs.length ∧
    (∀ nm p i, Ev.exportCsv nm p i ∈ write_outputs dfs out → i = false) ∧
    (∀ nm p i, Ev.exportParquet nm p i ∈ write_outputs dfs out → i = false) ∧
    ∃ l1 l2, write_outputs dfs out = l1 ++ l2 ∧
      (∀ e ∈ l1, isParquetWrite e = false) ∧ (∀ e ∈ l2, isCsvWrite e = false) := by
  refine ⟨?_, ?_, ?_, ?_, ?_, ?_⟩
  · intro n hn
    have hcount : (dfs.map Prod.fst).count n = 1 := List.count_eq_one_of_mem h hn
    constructor
    · simp only [write_outputs, List.countP_append, List.countP_cons,
        countP_csv_map, countP_csv_on_parquet_zero, hcount]
      simp [csvEventFor]
    · simp only [write_outputs, List.countP_append, List.countP_cons,
        countP_parquet_map, countP_parquet_on_csv_zero, hcount]
      simp [parquetEventFor]
  · have h1 : (dfs.map
        (fun p => Ev.exportCsv p.1 (joinPath out (p.1 ++ ".csv")) false)).countP
          isCsvWrite = dfs.length := by
      rw [List.countP_eq_length.mpr, List.length_map]
      intro e he
      obtain ⟨p, _, rfl⟩ := List.mem_map.mp he
      rfl
    have h2 : (dfs.map (fun p =>
        Ev.exportParquet p.1 (joinPath (joinPath out "parquet") (p.1 ++ ".parquet"))
          false)).countP isCsvWrite = 0 := by
      rw [List.countP_eq_zero]
      intro e he
      obtain ⟨p, _, rfl⟩ := List.mem_map.mp he
      simp [isCsvWrite]
    simp [write_outputs, List.countP_append, List.countP_cons, h1, h2, isCsvWrite]
  · have h1 : (dfs.map
        (fun p => Ev.exportCsv p.1 (joinPath out (p.1 ++ ".csv")) false)).countP
          isParquetWrite = 0 := by
      rw [List.countP_eq_zero]
      intro e he
      obtain ⟨p, _, rfl⟩ := List.mem_map.mp he
      simp [isParquetWrite]
    have h2 : (dfs.map (fun p =>
        Ev.exportParquet p.1 (joinPath (joinPath out "parquet") (p.1 ++ ".parquet"))
          false)).countP isParquetWrite = dfs.length := by
      rw [List.countP_eq_length.mpr, List.length_map]
      intro e he
      obtain ⟨p, _, rfl⟩ := List.mem_map.mp he
      rfl
    simp [write_outputs, List.countP_append, List.countP_cons, h1, h2, isParquetWrite]
  · intro nm p i hmem
    rcases List.mem_append.mp hmem with h1 | h2
    · rcases List.mem_cons.mp h1 with hc | hm
      · cases hc
      · obtain ⟨q, _, hq⟩ := List.mem_map.mp hm
        cases hq
        rfl
    · rcases List.mem_cons.mp h2 with hc | hm
      · cases hc
      · obtain ⟨q, _, hq⟩ := List.mem_map.mp hm
        cases hq
  · intro nm p i hmem
    rcases List.mem_append.mp hmem with h1 | h2
    · rcases List.mem_cons.mp h1 with hc | hm
      · cases hc
      · obtain ⟨q, _, hq⟩ := List.mem_map.mp hm
        cases hq
    · rcases List.mem_cons.mp h2 with hc | hm
      · cases hc
      · obtain ⟨q, _, hq⟩ := List.mem_map.mp hm
        cases hq
        rfl
  · refine ⟨_, _, rfl, ?_, ?_⟩
    · intro e he
      rcases List.mem_cons.mp he with rfl | hm
      · rfl
      · obtain ⟨p, _, rfl⟩ := List.mem_map.mp hm
        rfl
    · intro e he
      rcases List.mem_cons.mp he with rfl | hm
      · rfl
      · obtain ⟨p, _, rfl⟩ := List.mem_map.mp hm
        rfl

/-- The two-entry collection used to witness C5. -/
def twoDfs : List (String × Unit) := [("dim_date", ()), ("fact_order", ())]

/-- Witness for C5 at a two-entry collection. -/
theorem write_outputs_per_entry_witness :
    (twoDfs.map Prod.fst).Nodup ∧
    ((∀ n ∈ twoDfs.map Prod.fst,
      (write_outputs twoDfs "./output").countP (csvEventFor n "./output") = 1 ∧
      (write_outputs twoDfs "./output").countP (parquetEventFor n "./output") = 1) ∧
    (write_outputs twoDfs "./output").countP isCsvWrite = twoDfs.length ∧
    (write_outputs twoDfs "./output").countP isParquetWrite = twoDfs.length ∧
    (∀ nm p i, Ev.exportCsv nm p i ∈ write_outputs twoDfs "./output" → i = false) ∧
    (∀ nm p i, Ev.exportParquet nm p i ∈ write_outputs twoDfs "./output" → i = false) ∧
    ∃ l1 l2, write_outputs twoDfs "./output" = l1 ++ l2 ∧
      (∀ e ∈ l1, isParquetWrite e = false) ∧ (∀ e ∈ l2, isCsvWrite e = false)) :=
  ⟨by decide, write_outputs_per_entry twoDfs "./output" (by decide)⟩

/-- The CSV pass of `write_outputs` names the keys in collection order. -/
theorem filterMap_csv_names {α : Type} (dfs : List (String × α)) (out : String) :
    (dfs.map (fun p => Ev.exportCsv p.1 (joinPath out (p.1 ++ ".csv")) false)).filterMap
      csvNameOf = dfs.map Prod.fst := by
  induction dfs with
  | nil => rfl
  | cons p rest ih => simp [List.filterMap_cons, csvNameOf, ih]

/-- The Parquet pass of `write_outputs` names the keys in collection order. -/
theorem filterMap_parquet_names {α : Type} (dfs : List (String × α)) (out : String) :
    (dfs.map (fun p =>
        Ev.exportParquet p.1 (joinPath (joinPath out "parquet") (p.1 ++ ".parquet")) false)).filterMap
      parquetNameOf = dfs.map Prod.fst := by
  induction dfs with
  | nil => rfl
  | cons p rest ih => simp [List.filterMap_cons, parquetNameOf, ih]

/-- Parquet write events contribute no CSV names. -/
theorem filterMap_csv_on_parquet {α : Type} (dfs : List (String × α)) (out : String) :
    (dfs.map (fun p =>
        Ev.exportParquet p.1 (joinPath (joinPath out "parquet") (p.1 ++ ".parquet")) false)).filterMap
      csvNameOf = [] := by
  induction dfs with
  | nil => rfl
  | cons p rest ih => simp [List.filterMap_cons, csvNameOf, ih]

/-- CSV write events contribute no Parquet names. -/
theorem filterMap_parquet_on_csv {α : Type} (dfs : List (String × α)) (out : String) :
    (dfs.map (fun p => Ev.exportCsv p.1 (joinPath out (p.1 ++ ".csv")) false)).filterMap
      parquetNameOf = [] := by
  induction dfs with
  | nil => rfl
  | cons p rest ih => simp [List.filterMap_cons, parquetNameOf, ih]

/-- Claim C10: a successful extraction lists its keys as the six mandatory
tables in their fixed order followed by the present optional views in
probe order, and both the CSV pass and the Parquet pass of `write_outputs`
iterate the entries in exactly that order. -/
theorem extract_key_order_preserved {α : Type} (db : DB α) (dfs : List (String × α))
    (out : String) (h : extract db = Except.ok dfs) :
    dfs.map Prod.fst
      = ["dim_date", "dim_customer", "dim_product", "fact_order", "fact_order_item",
         "fact_login"]
        ++ (["vw_monthly_kpis", "vw_monthly_mau", "vw_customer_metrics"].filter
            (fun v => view_exists db v)) ∧
    (write_outputs dfs out).filterMap csvNameOf = dfs.map Prod.fst ∧
    (write_outputs dfs out).filterMap parquetNameOf = dfs.map Prod.fst := by
  refine ⟨runQueries_ok_keys h, ?_, ?_⟩
  · rw [write_outputs, List.filterMap_append, List.filterMap_cons_none rfl,
      List.filterMap_cons_none rfl, filterMap_csv_names, filterMap_csv_on_parquet,
      List.append_nil]
  · rw [write_outputs, List.filterMap_append, List.filterMap_cons_none rfl,
      List.filterMap_cons_none rfl, filterMap_parquet_names, filterMap_parquet_on_csv,
      List.nil_append]

/-- The collection extracted from `metricsViewDB`. -/
def metricsDfs : List (String × Unit) :=
  [("dim_date", ()), ("dim_customer", ()), ("dim_product", ()), ("fact_order", ()),
   ("fact_order_item", ()), ("fact_login", ()), ("vw_customer_metrics", ())]

/-- Witness for C10: with only `vw_customer_metrics` present, the keys are
the six mandatory tables followed by that view, in both export passes. -/
theorem extract_key_order_preserved_witness :
    extract metricsViewDB = Except.ok metricsDfs ∧
    (metricsDfs.map Prod.fst
      = ["dim_date", "dim_customer", "dim_product", "fact_order", "fact_order_item",
         "fact_login"]
        ++ (["vw_monthly_kpis", "vw_monthly_mau", "vw_customer_metrics"].filter
            (fun v => view_exists metricsViewDB v)) ∧
    (write_outputs metricsDfs "./output").filterMap csvNameOf = metricsDfs.map Prod.fst ∧
    (write_outputs metricsDfs "./output").filterMap parquetNameOf
      = metricsDfs.map Prod.fst) :=
  ⟨rfl, extract_key_order_preserved metricsViewDB metricsDfs "./output" rfl⟩
end EtlSpec
